import Mathlib

/-!
Shallow embedding of the Rusty repository (src/src/main.rs): an SDL2 + OpenGL
program that initializes a GL 3.3 core context, compiles and links a two-stage
shader program, uploads one static triangle, configures one vertex attribute,
sets the viewport and clear color, and then runs a frame loop that drains SDL
input events and renders.

The program's observable behaviour is modelled as a trace of actions
(`GLAction`): each GL call, each `println!`, the buffer swap, the sleep and the
`exit(0)` call become one trace element, in source order.  Window and context
creation are external collaborators and precede the modelled GL action trace.
Persistent GL configuration is obtained by folding a GL semantics
(`applyAction`) over a trace.  Floating point literals of the source are
modelled exactly as rationals (every literal in the source: -0.5, 0.5, 0.0,
0.1, 1.0 is exactly representable in f32, and the uploaded bytes are the f32
encodings of exactly these values).
-/

namespace Rusty

/-- OpenGL enum `glow::VERTEX_SHADER` (0x8B31). -/
def VERTEX_SHADER : Nat := 35633

/-- OpenGL enum `glow::FRAGMENT_SHADER` (0x8B30). -/
def FRAGMENT_SHADER : Nat := 35632

/-- OpenGL enum `glow::ARRAY_BUFFER` (0x8892). -/
def ARRAY_BUFFER : Nat := 34962

/-- OpenGL enum `glow::STATIC_DRAW` (0x88E4). -/
def STATIC_DRAW : Nat := 35044

/-- OpenGL enum `glow::FLOAT` (0x1406). -/
def FLOAT_TYPE : Nat := 5126

/-- OpenGL enum `glow::COLOR_BUFFER_BIT` (0x4000). -/
def COLOR_BUFFER_BIT : Nat := 16384

/-- OpenGL enum `glow::TRIANGLES` (0x0004). -/
def TRIANGLES : Nat := 4

/-- Handle returned by `gl.create_shader(glow::VERTEX_SHADER)`. -/
def vertexShaderId : Nat := 1

/-- Handle returned by `gl.create_shader(glow::FRAGMENT_SHADER)`. -/
def fragmentShaderId : Nat := 2

/-- Handle returned by `gl.create_program()`. -/
def programId : Nat := 1

/-- Handle returned by `gl.create_buffer()` (the vbo). -/
def vboId : Nat := 1

/-- Handle returned by `gl.create_vertex_array()` (the vao). -/
def vaoId : Nat := 1

/-- One observable step of the program: a GL call, a `println!`, the buffer
swap, the frame-pace sleep, or the `exit` call.  The two status-query
constructors are part of the GL vocabulary so that their absence from the
program's trace is expressible; the program never emits them. -/
inductive GLAction where
  | createShader (kind id : Nat)
  | shaderSource (shader : Nat) (src : String)
  | compileShader (shader : Nat)
  | getShaderCompileStatus (shader : Nat)
  | createProgram (id : Nat)
  | attachShader (program shader : Nat)
  | linkProgram (program : Nat)
  | getProgramLinkStatus (program : Nat)
  | useProgram (program : Option Nat)
  | createBuffer (id : Nat)
  | bindBuffer (target : Nat) (buffer : Option Nat)
  | bufferData (target : Nat) (data : List Rat) (usage : Nat)
  | createVertexArray (id : Nat)
  | bindVertexArray (vao : Option Nat)
  | enableVertexAttribArray (index : Nat)
  | vertexAttribPointerF32 (index size ty : Nat) (normalized : Bool) (stride offset : Nat)
  | viewport (x y w h : Int)
  | clearColor (r g b a : Rat)
  | clear (mask : Nat)
  | drawArrays (mode : Nat) (first count : Int)
  | swapWindow
  | printLine (s : String)
  | sleep (secs nanos : Nat)
  | exitProcess (code : Int)
deriving DecidableEq

/-- The 9-float vertex array of main.rs lines 34-38:
three vertices (x, y, z) of one triangle in normalized device coordinates. -/
def vertices : List Rat := [-0.5, -0.5, 0.0, 0.5, -0.5, 0.0, 0.0, 0.5, 0.0]

/-- The GL action sequence of the initialization phase (main.rs lines 40-74),
as a function of the text read from src/vertex.glsl and src/fragment.glsl.
It is a function of the two source strings only: no step inspects compile or
link success. -/
def initTrace (vsSource fsSource : String) : List GLAction :=
  [GLAction.createShader VERTEX_SHADER vertexShaderId,
   GLAction.shaderSource vertexShaderId vsSource,
   GLAction.compileShader vertexShaderId,
   GLAction.createShader FRAGMENT_SHADER fragmentShaderId,
   GLAction.shaderSource fragmentShaderId fsSource,
   GLAction.compileShader fragmentShaderId,
   GLAction.createProgram programId,
   GLAction.attachShader programId vertexShaderId,
   GLAction.attachShader programId fragmentShaderId,
   GLAction.linkProgram programId,
   GLAction.useProgram (some programId),
   GLAction.createBuffer vboId,
   GLAction.bindBuffer ARRAY_BUFFER (some vboId),
   GLAction.bufferData ARRAY_BUFFER vertices STATIC_DRAW,
   GLAction.createVertexArray vaoId,
   GLAction.bindVertexArray (some vaoId),
   GLAction.enableVertexAttribArray 0,
   GLAction.vertexAttribPointerF32 0 3 FLOAT_TYPE false (3 * 4) 0,
   GLAction.viewport 0 0 800 500,
   GLAction.clearColor 0.1 0.1 0.1 1.0]

/-- An SDL input event, as the frame loop distinguishes them: `Event::Quit`
with its timestamp, or any other event carrying its debug representation. -/
inductive Event where
  | quit (timestamp : Nat)
  | other (dbg : String)
deriving DecidableEq

/-- Whether the event matches the `Event::Quit \x7b timestamp \x7d` arm. -/
def Event.isQuit : Event → Bool
  | Event.quit _ => true
  | Event.other _ => false

/-- The text `println!("\x7b:?\x7d", event)` writes for the event. -/
def Event.debugRepr : Event → String
  | Event.quit t => ("Quit \x7b timestamp: ") ++ toString t ++ (" \x7d")
  | Event.other d => d

/-- The nanosecond argument of the sleep, `1_000_000_000u32 / 60`
(main.rs line 97); Rust `u32` division truncates. -/
def sleepNanos : Nat := 1000000000 / 60

/-- The actions of the frame loop's render step (main.rs lines 93-97):
one clear of the color buffer, one 3-vertex triangle draw call, one buffer
swap, one fixed sleep. -/
def renderCycle : List GLAction :=
  [GLAction.clear COLOR_BUFFER_BIT,
   GLAction.drawArrays TRIANGLES 0 3,
   GLAction.swapWindow,
   GLAction.sleep 0 sleepNanos]

/-- The actions of the `Event::Quit` match arm (main.rs lines 84-88),
preceded by the unconditional debug print of the event: print the event,
print the timestamp, print QUIT, call `exit(0)`. -/
def quitActions (t : Nat) : List GLAction :=
  [GLAction.printLine (Event.debugRepr (Event.quit t)),
   GLAction.printLine (toString t),
   GLAction.printLine ("QUIT"),
   GLAction.exitProcess 0]

/-- One pass of the `for event in event_pump.poll_iter()` body (main.rs lines
80-98) on one event: the actions it emits, and whether it called `exit`. -/
def processEvent (e : Event) : List GLAction × Bool :=
  match e with
  | Event.quit t => (quitActions t, true)
  | Event.other d => (GLAction.printLine d :: renderCycle, false)

/-- The whole `for` loop over the events pending this tick: processes events
in order; `exit` abandons the remaining events. -/
def runEvents : List Event → List GLAction × Bool
  | [] => ([], false)
  | e :: rest =>
    let p := processEvent e
    if p.2 then p
    else
      let r := runEvents rest
      (p.1 ++ r.1, r.2)

/-- The outer `loop` (main.rs line 79) over a finite schedule of ticks, each
tick supplying the list of events the pump delivers that tick.  Returns the
emitted trace and `some code` when `exit(code)` ran, `none` when the schedule
was exhausted with the loop still running. -/
def runLoop : List (List Event) → List GLAction × Option Int
  | [] => ([], none)
  | tick :: rest =>
    let t := runEvents tick
    if t.2 then (t.1, some 0)
    else
      let r := runLoop rest
      (t.1 ++ r.1, r.2)

/-- The whole program after window/context creation: the initialization trace
followed by the frame loop's trace, with the loop's exit code. -/
def runProgram (vsSource fsSource : String) (ticks : List (List Event)) :
    List GLAction × Option Int :=
  let l := runLoop ticks
  (initTrace vsSource fsSource ++ l.1, l.2)

/-- One vertex-attribute layout record of a vertex array: attribute slot,
component count, component type, normalized flag, byte stride, byte offset. -/
structure AttribLayout where
  vao : Nat
  index : Nat
  size : Nat
  ty : Nat
  normalized : Bool
  stride : Nat
  offset : Nat
deriving DecidableEq

/-- Persistent GL configuration state observable by later GL calls. -/
structure GLConfig where
  currentProgram : Option Nat
  attachedShaders : List (Nat × Nat)
  linkedPrograms : List Nat
  boundArrayBuffer : Option Nat
  bufferContents : List (Nat × List Rat)
  boundVertexArray : Option Nat
  enabledAttribs : List (Nat × Nat)
  attribLayouts : List AttribLayout
  viewportRect : Option (Int × Int × Int × Int)
  clearColorVal : Option (Rat × Rat × Rat × Rat)
deriving DecidableEq

/-- GL configuration right after context creation, before any modelled call. -/
def initConfig : GLConfig :=
  { currentProgram := none
    attachedShaders := []
    linkedPrograms := []
    boundArrayBuffer := none
    bufferContents := []
    boundVertexArray := none
    enabledAttribs := []
    attribLayouts := []
    viewportRect := none
    clearColorVal := none }

/-- Replace the binding of key `k` in an association list, appending when
absent. -/
def updateAssoc (l : List (Nat × List Rat)) (k : Nat) (v : List Rat) :
    List (Nat × List Rat) :=
  match l with
  | [] => [(k, v)]
  | (k0, v0) :: rest =>
    if k0 = k then (k, v) :: rest else (k0, v0) :: updateAssoc rest k v

/-- GL semantics of one action on the persistent configuration.  Draws,
clears, swaps, prints, sleeps and exit do not change the configuration;
`bufferData` writes through the current `ARRAY_BUFFER` binding; attribute
enabling and layout attach to the currently bound vertex array. -/
def applyAction (s : GLConfig) (a : GLAction) : GLConfig :=
  match a with
  | GLAction.attachShader p sh =>
    { s with attachedShaders := s.attachedShaders ++ [(p, sh)] }
  | GLAction.linkProgram p =>
    { s with linkedPrograms :=
        if p ∈ s.linkedPrograms then s.linkedPrograms
        else s.linkedPrograms ++ [p] }
  | GLAction.useProgram p => { s with currentProgram := p }
  | GLAction.bindBuffer target b =>
    if target = ARRAY_BUFFER then { s with boundArrayBuffer := b } else s
  | GLAction.bufferData target data _usage =>
    if target = ARRAY_BUFFER then
      match s.boundArrayBuffer with
      | some b => { s with bufferContents := updateAssoc s.bufferContents b data }
      | none => s
    else s
  | GLAction.bindVertexArray v => { s with boundVertexArray := v }
  | GLAction.enableVertexAttribArray i =>
    match s.boundVertexArray with
    | some v =>
      if (v, i) ∈ s.enabledAttribs then s
      else { s with enabledAttribs := s.enabledAttribs ++ [(v, i)] }
    | none => s
  | GLAction.vertexAttribPointerF32 i sz ty nm st off =>
    match s.boundVertexArray with
    | some v =>
      { s with attribLayouts :=
          (s.attribLayouts.filter (fun l => !(l.vao == v && l.index == i)))
            ++ [{ vao := v, index := i, size := sz, ty := ty,
                  normalized := nm, stride := st, offset := off }] }
    | none => s
  | GLAction.viewport x y w h => { s with viewportRect := some (x, y, w, h) }
  | GLAction.clearColor r g b aa => { s with clearColorVal := some (r, g, b, aa) }
  | _ => s

/-- The GL configuration reached by running a trace from the fresh context. -/
def configAfter (acts : List GLAction) : GLConfig :=
  List.foldl applyAction initConfig acts

/-- Actions the frame loop body can emit: print, clear, draw, swap, sleep,
exit.  None of them changes the persistent GL configuration. -/
def GLAction.isFrameAction : GLAction → Bool
  | GLAction.printLine _ => true
  | GLAction.clear _ => true
  | GLAction.drawArrays _ _ _ => true
  | GLAction.swapWindow => true
  | GLAction.sleep _ _ => true
  | GLAction.exitProcess _ => true
  | _ => false

/-- Is the action part of the render step (clear, draw, present or sleep)? -/
def GLAction.isRender : GLAction → Bool
  | GLAction.clear _ => true
  | GLAction.drawArrays _ _ _ => true
  | GLAction.swapWindow => true
  | GLAction.sleep _ _ => true
  | _ => false

/-- Is the action a draw call? -/
def GLAction.isDraw : GLAction → Bool
  | GLAction.drawArrays _ _ _ => true
  | _ => false

/-- Is the action a clear of the framebuffer? -/
def GLAction.isClear : GLAction → Bool
  | GLAction.clear _ => true
  | _ => false

/-- Is the action a buffer swap (present)? -/
def GLAction.isSwap : GLAction → Bool
  | GLAction.swapWindow => true
  | _ => false

/-- Is the action a sleep? -/
def GLAction.isSleep : GLAction → Bool
  | GLAction.sleep _ _ => true
  | _ => false

/-- Is the action a vertex-buffer data upload? -/
def GLAction.isBufferData : GLAction → Bool
  | GLAction.bufferData _ _ _ => true
  | _ => false

/-- Is the action a viewport change? -/
def GLAction.isViewport : GLAction → Bool
  | GLAction.viewport _ _ _ _ => true
  | _ => false

/-- Is the action a clear-color change? -/
def GLAction.isClearColor : GLAction → Bool
  | GLAction.clearColor _ _ _ _ => true
  | _ => false

/-- Is the action a compile-status or link-status query? -/
def GLAction.isStatusQuery : GLAction → Bool
  | GLAction.getShaderCompileStatus _ => true
  | GLAction.getProgramLinkStatus _ => true
  | _ => false

/-- Number of actions of a trace satisfying a predicate. -/
def countA (p : GLAction → Bool) : List GLAction → Nat
  | [] => 0
  | a :: l => (if p a then 1 else 0) + countA p l

/-- The actions one non-Quit event elicits from the loop body: its debug
print followed by one full render cycle. -/
def eventCycle (e : Event) : List GLAction :=
  GLAction.printLine e.debugRepr :: renderCycle

/-- The trace a tick's event drain emits when no event is a Quit: one
`eventCycle` per drained event, in order (the render step is nested inside
the per-event loop). -/
def drainTrace : List Event → List GLAction
  | [] => []
  | e :: rest => eventCycle e ++ drainTrace rest

/-- The trace of a run over a schedule of ticks none of whose events is a
Quit. -/
def loopTrace : List (List Event) → List GLAction
  | [] => []
  | tk :: rest => drainTrace tk ++ loopTrace rest

/-! ### Helper lemmas -/

theorem countA_append (p : GLAction → Bool) (l1 l2 : List GLAction) :
    countA p (l1 ++ l2) = countA p l1 + countA p l2 := by
  induction l1 with
  | nil => simp [countA]
  | cons a l ih => simp [countA, ih, Nat.add_assoc]

theorem countA_eq_zero (p : GLAction → Bool) (l : List GLAction)
    (h : ∀ a ∈ l, p a = false) : countA p l = 0 := by
  induction l with
  | nil => rfl
  | cons a l ih =>
    have ha := h a (by simp)
    simp [countA, ha, ih (fun x hx => h x (by simp [hx]))]

theorem countA_drainTrace (p : GLAction → Bool)
    (hp : ∀ s, p (GLAction.printLine s) = false)
    (hr : countA p renderCycle = 1) (es : List Event) :
    countA p (drainTrace es) = es.length := by
  induction es with
  | nil => rfl
  | cons e rest ih =>
    have h1 : countA p (eventCycle e) = 1 := by
      show (if p (GLAction.printLine e.debugRepr) = true then 1 else 0)
          + countA p renderCycle = 1
      rw [hp, hr]
      simp
    rw [drainTrace, countA_append, ih, h1, List.length_cons]
    omega

theorem applyAction_frame (s : GLConfig) (a : GLAction)
    (h : a.isFrameAction = true) : applyAction s a = s := by
  cases a <;> simp_all [GLAction.isFrameAction, applyAction]

theorem frame_not_config (a : GLAction) (h : a.isFrameAction = true) :
    a.isBufferData = false ∧ a.isViewport = false ∧ a.isClearColor = false
      ∧ a.isStatusQuery = false := by
  cases a <;> simp_all [GLAction.isFrameAction, GLAction.isBufferData,
    GLAction.isViewport, GLAction.isClearColor, GLAction.isStatusQuery]

theorem processEvent_frame (e : Event) :
    ∀ a ∈ (processEvent e).1, a.isFrameAction = true := by
  cases e with
  | quit t =>
    intro a ha
    simp only [processEvent, quitActions, List.mem_cons,
      List.not_mem_nil, or_false] at ha
    rcases ha with rfl | rfl | rfl | rfl <;> rfl
  | other d =>
    intro a ha
    simp only [processEvent, renderCycle, List.mem_cons,
      List.not_mem_nil, or_false] at ha
    rcases ha with rfl | rfl | rfl | rfl | rfl <;> rfl

theorem runEvents_frame (es : List Event) :
    ∀ a ∈ (runEvents es).1, a.isFrameAction = true := by
  induction es with
  | nil => intro a ha; simp [runEvents] at ha
  | cons e rest ih =>
    intro a ha
    simp only [runEvents] at ha
    by_cases h : (processEvent e).2
    · rw [if_pos h] at ha
      exact processEvent_frame e a ha
    · rw [if_neg h] at ha
      simp only [List.mem_append] at ha
      rcases ha with h1 | h1
      · exact processEvent_frame e a h1
      · exact ih a h1

theorem runLoop_frame (ticks : List (List Event)) :
    ∀ a ∈ (runLoop ticks).1, a.isFrameAction = true := by
  induction ticks with
  | nil => intro a ha; simp [runLoop] at ha
  | cons tk rest ih =>
    intro a ha
    simp only [runLoop] at ha
    by_cases h : (runEvents tk).2
    · rw [if_pos h] at ha
      exact runEvents_frame tk a ha
    · rw [if_neg h] at ha
      simp only [List.mem_append] at ha
      rcases ha with h1 | h1
      · exact runEvents_frame tk a h1
      · exact ih a h1

theorem foldl_frame (l : List GLAction)
    (h : ∀ a ∈ l, a.isFrameAction = true) (s : GLConfig) :
    List.foldl applyAction s l = s := by
  induction l generalizing s with
  | nil => rfl
  | cons a l ih =>
    rw [List.foldl_cons, applyAction_frame s a (h a (by simp))]
    exact ih (fun x hx => h x (by simp [hx])) s

theorem configAfter_runProgram (vs fs : String) (ticks : List (List Event)) :
    configAfter (runProgram vs fs ticks).1 = configAfter (initTrace vs fs) := by
  show configAfter (initTrace vs fs ++ (runLoop ticks).1) = _
  rw [configAfter, configAfter, List.foldl_append]
  exact foldl_frame _ (runLoop_frame ticks) _

theorem countA_runLoop_zero (p : GLAction → Bool)
    (hp : ∀ a : GLAction, a.isFrameAction = true → p a = false)
    (ticks : List (List Event)) : countA p (runLoop ticks).1 = 0 :=
  countA_eq_zero p _ (fun a ha => hp a (runLoop_frame ticks a ha))

theorem runEvents_no_quit (es : List Event)
    (h : ∀ e ∈ es, e.isQuit = false) :
    runEvents es = (drainTrace es, false) := by
  induction es with
  | nil => rfl
  | cons e rest ih =>
    have he := h e (by simp)
    cases e with
    | quit t => simp [Event.isQuit] at he
    | other d =>
      have hr := ih (fun x hx => h x (by simp [hx]))
      simp [runEvents, processEvent, hr, drainTrace, eventCycle,
        Event.debugRepr]

theorem runEvents_quit (es1 es2 : List Event) (t : Nat)
    (h : ∀ e ∈ es1, e.isQuit = false) :
    runEvents (es1 ++ Event.quit t :: es2)
      = (drainTrace es1 ++ quitActions t, true) := by
  induction es1 with
  | nil => rfl
  | cons e rest ih =>
    have he := h e (by simp)
    cases e with
    | quit t0 => simp [Event.isQuit] at he
    | other d =>
      have hr := ih (fun x hx => h x (by simp [hx]))
      simp [runEvents, processEvent, hr, drainTrace, eventCycle,
        Event.debugRepr, List.append_assoc]

theorem runLoop_append_no_quit (ticks1 rest : List (List Event))
    (h : ∀ tk ∈ ticks1, ∀ e ∈ tk, e.isQuit = false) :
    runLoop (ticks1 ++ rest)
      = (loopTrace ticks1 ++ (runLoop rest).1, (runLoop rest).2) := by
  induction ticks1 with
  | nil => simp [loopTrace]
  | cons tk t1 ih =>
    have htk : runEvents tk = (drainTrace tk, false) :=
      runEvents_no_quit tk (h tk (by simp))
    have hr := ih (fun x hx => h x (by simp [hx]))
    simp [runLoop, htk, hr, loopTrace, List.append_assoc]

/-! ### Claim theorems -/

/-- C1: the moment the frame loop drains a Quit event, the process exits with
code 0 immediately: from that point the trace holds only the Quit debug
print, the timestamp print, the QUIT print and the `exit(0)` call — no
further clear, draw call, present or sleep — and the remaining events of the
tick (`es2`) and all later ticks (`ticks2`) are skipped entirely. -/
theorem C1_quit_immediate_exit (ticks1 : List (List Event))
    (es1 es2 : List Event) (t : Nat) (ticks2 : List (List Event))
    (h1 : ∀ tk ∈ ticks1, ∀ e ∈ tk, e.isQuit = false)
    (h2 : ∀ e ∈ es1, e.isQuit = false) :
    runLoop (ticks1 ++ (es1 ++ Event.quit t :: es2) :: ticks2)
        = (loopTrace ticks1 ++ (drainTrace es1 ++ quitActions t), some 0)
      ∧ ((quitActions t).all fun a => !a.isRender) = true
      ∧ (quitActions t).getLast? = some (GLAction.exitProcess 0) := by
  refine ⟨?_, rfl, rfl⟩
  rw [runLoop_append_no_quit ticks1 _ h1]
  have hq : runLoop ((es1 ++ Event.quit t :: es2) :: ticks2)
      = (drainTrace es1 ++ quitActions t, some 0) := by
    simp [runLoop, runEvents_quit es1 es2 t h2]
  rw [hq]

/-- C1 witness: a concrete run — one earlier tick, one earlier event in the
Quit tick, one later event and one later tick, all skipped or rendered as the
theorem states. -/
theorem C1_witness :
    runLoop ([[Event.other ("x")]]
        ++ ([Event.other ("y")] ++ Event.quit 7 :: [Event.other ("z")])
          :: [[Event.other ("w")]])
        = (loopTrace [[Event.other ("x")]]
            ++ (drainTrace [Event.other ("y")] ++ quitActions 7), some 0)
      ∧ ((quitActions 7).all fun a => !a.isRender) = true
      ∧ (quitActions 7).getLast? = some (GLAction.exitProcess 0) :=
  C1_quit_immediate_exit [[Event.other ("x")]] [Event.other ("y")]
    [Event.other ("z")] 7 [[Event.other ("w")]] (by decide) (by decide)

/-- C2 counterexample: a tick that drains two non-Quit events performs two
clear + draw + present + sleep cycles, not exactly one, refuting the claim's
"exactly one cycle regardless of how many events were drained". -/
theorem C2_counterexample :
    (runEvents [Event.other ("a"), Event.other ("b")]).2 = false
      ∧ countA GLAction.isDraw
          (runEvents [Event.other ("a"), Event.other ("b")]).1 = 2
      ∧ ¬ countA GLAction.isDraw
          (runEvents [Event.other ("a"), Event.other ("b")]).1 = 1
      ∧ ¬ countA GLAction.isClear
          (runEvents [Event.other ("a"), Event.other ("b")]).1 = 1 := by
  decide

/-- C2 amended: a frame-loop iteration that drains at least one event, none
of them a Quit, performs exactly one clear + draw + present + fixed-delay
cycle per drained event — N cycles for N events — not one per iteration. -/
theorem C2_one_cycle_per_event (es : List Event)
    (h : ∀ e ∈ es, e.isQuit = false) (_hne : es ≠ []) :
    (runEvents es).2 = false
      ∧ countA GLAction.isClear (runEvents es).1 = es.length
      ∧ countA GLAction.isDraw (runEvents es).1 = es.length
      ∧ countA GLAction.isSwap (runEvents es).1 = es.length
      ∧ countA GLAction.isSleep (runEvents es).1 = es.length := by
  rw [runEvents_no_quit es h]
  exact ⟨rfl,
    countA_drainTrace GLAction.isClear (fun _ => rfl) rfl es,
    countA_drainTrace GLAction.isDraw (fun _ => rfl) rfl es,
    countA_drainTrace GLAction.isSwap (fun _ => rfl) rfl es,
    countA_drainTrace GLAction.isSleep (fun _ => rfl) rfl es⟩

/-- C2 witness: the amended claim at a concrete one-event tick. -/
theorem C2_witness :
    (runEvents [Event.other ("a")]).2 = false
      ∧ countA GLAction.isClear (runEvents [Event.other ("a")]).1
          = [Event.other ("a")].length
      ∧ countA GLAction.isDraw (runEvents [Event.other ("a")]).1
          = [Event.other ("a")].length
      ∧ countA GLAction.isSwap (runEvents [Event.other ("a")]).1
          = [Event.other ("a")].length
      ∧ countA GLAction.isSleep (runEvents [Event.other ("a")]).1
          = [Event.other ("a")].length :=
  C2_one_cycle_per_event [Event.other ("a")] (by decide) (by decide)

/-- C3: a tick that drains zero events emits no action at all (no draw, no
present, no sleep), and a tick that drains N non-Quit events emits, nested
per event, the event's debug print followed by one clear/draw/present/sleep
cycle — so the draw, the present and the sleep each occur exactly N times. -/
theorem C3_render_nested_in_event_loop (es : List Event)
    (h : ∀ e ∈ es, e.isQuit = false) :
    runEvents ([] : List Event) = ([], false)
      ∧ runEvents es = (drainTrace es, false)
      ∧ countA GLAction.isDraw (drainTrace es) = es.length
      ∧ countA GLAction.isSwap (drainTrace es) = es.length
      ∧ countA GLAction.isSleep (drainTrace es) = es.length :=
  ⟨rfl, runEvents_no_quit es h,
    countA_drainTrace GLAction.isDraw (fun _ => rfl) rfl es,
    countA_drainTrace GLAction.isSwap (fun _ => rfl) rfl es,
    countA_drainTrace GLAction.isSleep (fun _ => rfl) rfl es⟩

/-- C3 witness: the nesting at a concrete two-event tick. -/
theorem C3_witness :
    runEvents ([] : List Event) = ([], false)
      ∧ runEvents [Event.other ("a"), Event.other ("b")]
          = (drainTrace [Event.other ("a"), Event.other ("b")], false)
      ∧ countA GLAction.isDraw
          (drainTrace [Event.other ("a"), Event.other ("b")]) = 2
      ∧ countA GLAction.isSwap
          (drainTrace [Event.other ("a"), Event.other ("b")]) = 2
      ∧ countA GLAction.isSleep
          (drainTrace [Event.other ("a"), Event.other ("b")]) = 2 :=
  C3_render_nested_in_event_loop [Event.other ("a"), Event.other ("b")]
    (by decide)

/-- C4: for every run, whatever the shader sources and the event schedule,
the trace holds exactly one buffer upload; it happens in initialization, into
the bound `ARRAY_BUFFER` with the `STATIC_DRAW` usage hint, and carries
exactly the 9 floats (-0.5,-0.5,0), (0.5,-0.5,0), (0,0.5,0); afterwards the
vertex buffer's contents never change. -/
theorem C4_vertex_buffer_uploaded_once (vs fs : String)
    (ticks : List (List Event)) :
    vertices = [-0.5, -0.5, 0.0, 0.5, -0.5, 0.0, 0.0, 0.5, 0.0]
      ∧ vertices.length = 9
      ∧ countA GLAction.isBufferData (initTrace vs fs) = 1
      ∧ countA GLAction.isBufferData (runProgram vs fs ticks).1 = 1
      ∧ GLAction.bufferData ARRAY_BUFFER vertices STATIC_DRAW ∈ initTrace vs fs
      ∧ (configAfter (runProgram vs fs ticks).1).bufferContents
          = [(vboId, vertices)] := by
  refine ⟨rfl, rfl, rfl, ?_, by simp [initTrace], ?_⟩
  · show countA GLAction.isBufferData
        (initTrace vs fs ++ (runLoop ticks).1) = 1
    rw [countA_append,
      countA_runLoop_zero _ (fun a ha => (frame_not_config a ha).1) ticks]
    rfl
  · rw [configAfter_runProgram]
    rfl

/-- C5: after initialization the program has the vertex and the fragment
stage attached (in that order), is linked and is the current program, and the
vertex array has exactly one enabled attribute, at slot 0, laid out as
3-component float32 tuples with stride 3·4 = 12 bytes and offset 0; no
frame-loop iteration changes any of this. -/
theorem C5_program_vao_config (vs fs : String) (ticks : List (List Event)) :
    (configAfter (initTrace vs fs)).attachedShaders
        = [(programId, vertexShaderId), (programId, fragmentShaderId)]
      ∧ (configAfter (initTrace vs fs)).linkedPrograms = [programId]
      ∧ (configAfter (initTrace vs fs)).currentProgram = some programId
      ∧ (configAfter (initTrace vs fs)).enabledAttribs = [(vaoId, 0)]
      ∧ (configAfter (initTrace vs fs)).attribLayouts
          = [{ vao := vaoId, index := 0, size := 3, ty := FLOAT_TYPE,
               normalized := false, stride := 3 * 4, offset := 0 }]
      ∧ configAfter (runProgram vs fs ticks).1 = configAfter (initTrace vs fs) :=
  ⟨rfl, rfl, rfl, rfl, rfl, configAfter_runProgram vs fs ticks⟩

/-- C6: the whole run's trace holds exactly one viewport call and exactly one
clear-color call, both in initialization: viewport (0,0,800,500) covering the
fixed 800×500 window and clear color (0.1, 0.1, 0.1, 1.0); the resulting
configuration still holds these values after any run. -/
theorem C6_viewport_clearcolor_once (vs fs : String)
    (ticks : List (List Event)) :
    countA GLAction.isViewport (initTrace vs fs) = 1
      ∧ countA GLAction.isClearColor (initTrace vs fs) = 1
      ∧ countA GLAction.isViewport (runProgram vs fs ticks).1 = 1
      ∧ countA GLAction.isClearColor (runProgram vs fs ticks).1 = 1
      ∧ GLAction.viewport 0 0 800 500 ∈ initTrace vs fs
      ∧ GLAction.clearColor 0.1 0.1 0.1 1.0 ∈ initTrace vs fs
      ∧ (configAfter (runProgram vs fs ticks).1).viewportRect
          = some (0, 0, 800, 500)
      ∧ (configAfter (runProgram vs fs ticks).1).clearColorVal
          = some (0.1, 0.1, 0.1, 1.0) := by
  refine ⟨rfl, rfl, ?_, ?_, by simp [initTrace], by simp [initTrace], ?_, ?_⟩
  · show countA GLAction.isViewport
        (initTrace vs fs ++ (runLoop ticks).1) = 1
    rw [countA_append,
      countA_runLoop_zero _ (fun a ha => (frame_not_config a ha).2.1) ticks]
    rfl
  · show countA GLAction.isClearColor
        (initTrace vs fs ++ (runLoop ticks).1) = 1
    rw [countA_append,
      countA_runLoop_zero _ (fun a ha => (frame_not_config a ha).2.2.1) ticks]
    rfl
  · rw [configAfter_runProgram]
    rfl
  · rw [configAfter_runProgram]
    rfl

/-- C7 counterexample: the sleep the render step issues lasts
`1_000_000_000u32 / 60` = 16666666 nanoseconds (Rust u32 division
truncates), and 16666666 ns is not exactly 1/60 of a second:
16666666 · 60 = 999999960 ≠ 1000000000. -/
theorem C7_counterexample :
    GLAction.sleep 0 sleepNanos ∈ renderCycle
      ∧ sleepNanos = 16666666
      ∧ (sleepNanos : Rat) / 1000000000 ≠ 1 / 60
      ∧ sleepNanos * 60 ≠ 1000000000 :=
  ⟨by decide, by decide, by norm_num [sleepNanos], by decide⟩

/-- C7 amended: each render step ends with a sleep of the fixed duration of
16666666 nanoseconds, the truncation of 10⁹/60 — approximately, but not
exactly, 1/60 second. -/
theorem C7_sleep_ends_render (e : Event) (h : e.isQuit = false) :
    (processEvent e).1.getLast? = some (GLAction.sleep 0 sleepNanos)
      ∧ sleepNanos = 16666666 := by
  cases e with
  | quit t => simp [Event.isQuit] at h
  | other d => exact ⟨rfl, rfl⟩

/-- C7 witness: the amended claim at a concrete non-Quit event. -/
theorem C7_witness :
    (processEvent (Event.other ("a"))).1.getLast?
        = some (GLAction.sleep 0 sleepNanos)
      ∧ sleepNanos = 16666666 :=
  C7_sleep_ends_render (Event.other ("a")) (by decide)

/-- C8: no trace of the program, whatever the shader sources and the event
schedule, contains a compile-status or link-status query, and the
initialization sequence is a function of the source strings alone that
unconditionally follows each compile with an attach of the same shader
handle and the link with binding the program current (indices 2,5 are the
compiles, 7,8 the attaches, 9 the link, 10 the bind). -/
theorem C8_no_status_checks (vs fs : String) (ticks : List (List Event)) :
    countA GLAction.isStatusQuery (initTrace vs fs) = 0
      ∧ countA GLAction.isStatusQuery (runProgram vs fs ticks).1 = 0
      ∧ (initTrace vs fs)[2]? = some (GLAction.compileShader vertexShaderId)
      ∧ (initTrace vs fs)[5]? = some (GLAction.compileShader fragmentShaderId)
      ∧ (initTrace vs fs)[7]?
          = some (GLAction.attachShader programId vertexShaderId)
      ∧ (initTrace vs fs)[8]?
          = some (GLAction.attachShader programId fragmentShaderId)
      ∧ (initTrace vs fs)[9]? = some (GLAction.linkProgram programId)
      ∧ (initTrace vs fs)[10]? = some (GLAction.useProgram (some programId)) := by
  refine ⟨rfl, ?_, rfl, rfl, rfl, rfl, rfl, rfl⟩
  show countA GLAction.isStatusQuery
      (initTrace vs fs ++ (runLoop ticks).1) = 0
  rw [countA_append,
    countA_runLoop_zero _ (fun a ha => (frame_not_config a ha).2.2.2) ticks]
  rfl

/-- C9 counterexample: draining a single non-Quit event leaves the loop
running, but it is not free of observable effect beyond being drained: it
triggers a clear, a 3-vertex draw call and a buffer swap. -/
theorem C9_counterexample :
    (runEvents [Event.other ("a")]).2 = false
      ∧ GLAction.clear COLOR_BUFFER_BIT ∈ (runEvents [Event.other ("a")]).1
      ∧ GLAction.drawArrays TRIANGLES 0 3 ∈ (runEvents [Event.other ("a")]).1
      ∧ GLAction.swapWindow ∈ (runEvents [Event.other ("a")]).1 := by
  decide

/-- C9 amended: a drained non-Quit event leaves the loop in the Running
state; its classification discards it, changing neither control flow nor any
persistent GPU configuration — but the drain itself triggers the event's
debug print and one clear + draw + present + sleep cycle, which is an
observable output effect. -/
theorem C9_non_quit_keeps_running (e : Event) (s : GLConfig)
    (h : e.isQuit = false) :
    (processEvent e).2 = false
      ∧ (processEvent e).1 = GLAction.printLine e.debugRepr :: renderCycle
      ∧ List.foldl applyAction s (processEvent e).1 = s := by
  cases e with
  | quit t => simp [Event.isQuit] at h
  | other d => exact ⟨rfl, rfl, rfl⟩

/-- C9 witness: the amended claim at a concrete event and the fresh
configuration. -/
theorem C9_witness :
    (processEvent (Event.other ("a"))).2 = false
      ∧ (processEvent (Event.other ("a"))).1
          = GLAction.printLine (Event.other ("a")).debugRepr :: renderCycle
      ∧ List.foldl applyAction initConfig
          (processEvent (Event.other ("a"))).1 = initConfig :=
  C9_non_quit_keeps_running (Event.other ("a")) initConfig (by decide)

/-- C10: every drained event's first emitted action is the print of its debug
representation, before any classification-dependent action; a Quit event then
prints its timestamp and the line QUIT before `exit(0)` runs, and nothing
else. -/
theorem C10_event_printed_before_classified (e : Event) (t : Nat) :
    (processEvent e).1.head? = some (GLAction.printLine e.debugRepr)
      ∧ processEvent (Event.quit t)
          = ([GLAction.printLine (Event.debugRepr (Event.quit t)),
              GLAction.printLine (toString t),
              GLAction.printLine ("QUIT"),
              GLAction.exitProcess 0], true) := by
  cases e <;> exact ⟨rfl, rfl⟩

end Rusty
